import Mathlib

/-!
Shallow embedding of the task-dispatch and virtual-memory syscall core of the
rCore-based kernel (files `os/src/task/processor.rs` and `os/src/syscall/process.rs`).

Machine integers are modelled as `Nat` with explicit truncation (`% 2 ^ w`) where the
source relies on wrapping or casts; fallible operations (a Rust `unwrap` that may panic)
return `Option`.  The `mm` module (page table, `MemorySet`, `translated_byte_buffer`),
the timer and the trap dispatcher are not under `src/`; their interfaces are modelled
from the spec and marked `Modelled from the spec:` below.
-/

/-- Page size of the kernel (config constant, not under src/): 4 KiB. -/
def PAGE_SIZE : Nat := 4096

/-- Number of values of the 64-bit `usize` type; `!0x7` in Rust on `usize` is
`USIZE - 8`. -/
def USIZE : Nat := 2 ^ 64

/-- Number of values of `u32`, the type of one syscall counter. -/
def U32 : Nat := 2 ^ 32

/-- Modelled from the spec: `MAX_SYSCALL_NUM` config constant (size of the per-task
syscall counter array). -/
def MAX_SYSCALL_NUM : Nat := 500

/-- The syscall id of `task_info` in the rCore lab ABI. -/
def SYSCALL_TASK_INFO : Nat := 410

/-- Page offset of a virtual address (`VirtAddr::page_offset`). -/
def page_offset (va : Nat) : Nat := va % PAGE_SIZE

/-- Floor page number of a virtual address (`VirtAddr::floor`). -/
def floorPage (va : Nat) : Nat := va / PAGE_SIZE

/-- Ceiling page number of a virtual address (`VirtAddr::ceil`). -/
def ceilPage (va : Nat) : Nat := (va + PAGE_SIZE - 1) / PAGE_SIZE

/-- The half-open page range `[l, r)` iterated by `VPNRange { l, r }`. -/
def pageRange (l r : Nat) : List Nat := List.range' l (r - l)

/-- Modelled from the spec: a page-table entry as seen through `translate` — a physical
mapping with permission bits and a validity flag (§4.1: maps a vpn to
`(physical_frame, permission)` or unmapped; a stale entry may exist but be invalid,
which `is_valid` reports). -/
structure PTEntry where
  valid : Bool
  perm : Nat
deriving Repr, DecidableEq

/-- The `is_valid` accessor used by `current_task_mmap`/`current_task_munmap`. -/
def PTEntry.is_valid (e : PTEntry) : Bool := e.valid

/-- Modelled from the spec: a `MapArea` record (§3) — page range `[l, r)` plus its
permission bits. -/
structure MapArea where
  l : Nat
  r : Nat
  perm : Nat
deriving Repr, DecidableEq

/-- Modelled from the spec: an Address Space (§3, §4.2) — the translator's table `pt`
together with the ordered list of MapAreas. -/
structure MemorySet where
  pt : Nat → Option PTEntry
  areas : List MapArea

/-- The read-only lookup `MemorySet::translate` (§4.2 delegates to the translator). -/
def MemorySet.translate (ms : MemorySet) (vpn : Nat) : Option PTEntry := ms.pt vpn

/-- An address space with nothing mapped and no areas. -/
def emptyMS : MemorySet := { pt := fun _ => none, areas := [] }

/-- One loop iteration of `current_task_mmap`'s check (processor.rs:162-168): a page
counts as already mapped when `translate` yields a valid entry. -/
def MemorySet.isMapped (ms : MemorySet) (vpn : Nat) : Bool :=
  match ms.translate vpn with
  | some e => e.is_valid
  | none => false

/-- One loop iteration of `current_task_munmap`'s check (processor.rs:198-210): the
page fails (forcing `-1`) when `translate` yields nothing or an invalid entry. -/
def munmapPageFails (ms : MemorySet) (vpn : Nat) : Bool :=
  match ms.translate vpn with
  | none => true
  | some e => !e.is_valid

/-- Modelled from the spec: `insert_framed_area` (§4.2, not under src/) — computes
`start_vpn = floor(start_va)`, `end_vpn = ceil(end_va)`; all-or-nothing: no mutation
when any page in the range is already mapped, otherwise installs a valid entry with the
permission for every page and records a new MapArea. -/
def insert_framed_area (ms : MemorySet) (start_va end_va perm : Nat) : MemorySet :=
  let l := floorPage start_va
  let r := ceilPage end_va
  if (pageRange l r).any ms.isMapped then ms
  else
    { pt := fun v => if l ≤ v ∧ v < r then some ⟨true, perm⟩ else ms.pt v,
      areas := ms.areas ++ [⟨l, r, perm⟩] }

/-- Modelled from the spec: `remove_area_with_start_vpn` (§4.2, not under src/) —
locates the MapArea whose range begins exactly at `start_vpn`; on a match unmaps every
page of that area and removes it from the region list, otherwise changes nothing (the
callers in processor.rs discard its result). -/
def remove_area_with_start_vpn (ms : MemorySet) (start_vpn : Nat) : MemorySet :=
  match ms.areas.find? (fun a => a.l == start_vpn) with
  | none => ms
  | some a =>
    { pt := fun v => if a.l ≤ v ∧ v < a.r then none else ms.pt v,
      areas := ms.areas.eraseP (fun b => b.l == start_vpn) }

/-- Modelled from the spec: the `MapPermission` bitflags use the RISC-V PTE bit layout
implied by the code's `port << 1` idiom — R = 2, W = 4, X = 8, U = 16. -/
def MapPermission_ALL : Nat := 2 ||| 4 ||| 8 ||| 16

/-- The `U` (user-accessible) permission bit. -/
def MapPermission_U : Nat := 16

/-- Modelled from the spec: bitflags `MapPermission::from_bits` on a `u8` — `some bits`
exactly when no bit outside R|W|X|U is set. -/
def MapPermission_from_bits (bits : Nat) : Option Nat :=
  if bits &&& (255 - MapPermission_ALL) = 0 then some bits else none

/-- `current_task_mmap` (processor.rs:143-176), as a function of the current task's
address space.  The final `unwrap` of `MapPermission::from_bits((_port << 1) as u8)`
is modelled by `Option.map`: a `none` result is the panic.  The `as u8` cast is the
`% 256` truncation. -/
def current_task_mmap (ms : MemorySet) (start len port : Nat) :
    Option (Int × MemorySet) :=
  let start_va := start
  let end_va := start + len
  if page_offset start_va ≠ 0 ∨ port &&& (USIZE - 8) ≠ 0 ∨ port &&& 7 = 0 then
    some (-1, ms)
  else
    let start_vpn := floorPage start_va
    let end_vpn := ceilPage end_va
    if (pageRange start_vpn end_vpn).any ms.isMapped then some (-1, ms)
    else
      (MapPermission_from_bits ((port <<< 1) % 256)).map fun bits =>
        (0, insert_framed_area ms start_va end_va (MapPermission_U ||| bits))

/-- `current_task_munmap` (processor.rs:179-215), as a function of the current task's
address space.  The early-return loop over the page range is the `List.any` test, after
which `remove_area_with_start_vpn` is called and `0` returned unconditionally. -/
def current_task_munmap (ms : MemorySet) (start len : Nat) : Int × MemorySet :=
  let start_va := start
  let end_va := start + len
  if page_offset start_va ≠ 0 then (-1, ms)
  else
    let start_vpn := floorPage start_va
    let end_vpn := ceilPage end_va
    if (pageRange start_vpn end_vpn).any (munmapPageFails ms) then (-1, ms)
    else (0, remove_area_with_start_vpn ms start_vpn)

/-- Task lifecycle states (`TaskStatus`). -/
inductive TaskStatus
  | UnInit
  | Ready
  | Running
  | Exited
deriving Repr, DecidableEq

/-- The fields of a task control block's inner state touched by the claims:
lifecycle status, dispatch start time (`task_stime`, milliseconds) and the per-syscall
counters (`task_syscall_times`, an array of `u32`). -/
structure TaskInner where
  task_status : TaskStatus
  task_stime : Nat
  task_syscall_times : List Nat
deriving Repr, DecidableEq

/-- The effect of one dispatch in `run_tasks` (processor.rs:64-69) on the fetched
task's inner state, given the millisecond clock reading `now`: set status to `Running`
and stamp `task_stime := now` only when `task_stime == 0`. -/
def run_tasks_dispatch (t : TaskInner) (now : Nat) : TaskInner :=
  let t1 := { t with task_status := TaskStatus.Running }
  if t1.task_stime == 0 then { t1 with task_stime := now } else t1

/-- A sequence of dispatches of the same task at the given clock readings. -/
def dispatchSeq (t : TaskInner) (times : List Nat) : TaskInner :=
  times.foldl run_tasks_dispatch t

/-- `current_task_count_syscall` (processor.rs:110-115):
`task_syscall_times[syscall_id] += 1` on the current task, with `u32` wrap-around. -/
def current_task_count_syscall (times : List Nat) (syscall_id : Nat) : List Nat :=
  times.set syscall_id ((times.getD syscall_id 0 + 1) % U32)

/-- The `TaskInfo` record written to user memory (process.rs:20-28). -/
structure TaskInfo where
  status : TaskStatus
  syscall_times : List Nat
  time : Nat
deriving Repr, DecidableEq

/-- `current_task_info` (processor.rs:118-130): snapshot of the current task with
`time = now - task_stime`. -/
def current_task_info (t : TaskInner) (now : Nat) : TaskInfo :=
  { status := t.task_status
    syscall_times := t.task_syscall_times
    time := now - t.task_stime }

/-- Modelled from the spec: the page-local slices produced by
`translated_byte_buffer` / `translate_bytes` (§4.2, not under src/) for the byte range
`[ptr, ptr + len)` — one slice per page touched; only the slice count matters to the
callers below, so the list holds the touched page numbers. -/
def translated_byte_buffer_pages (ptr len : Nat) : List Nat :=
  pageRange (floorPage ptr) (ceilPage (ptr + len))

/-- Little-endian bytes of a machine word (`usize::to_ne_bytes` on RISC-V). -/
def to_ne_bytes (n : Nat) : List Nat :=
  (List.range 8).map fun i => n / 256 ^ i % 256

/-- `sys_get_time` (process.rs:47-60) given the microsecond clock reading `us` and the
user destination address `ptr`.  The result pairs the return value with the bytes
written to the 16-byte destination (`none` when the body skips the write because
`translated_byte_buffer` returned other than exactly one slice). -/
def sys_get_time (us ptr : Nat) : Int × Option (List Nat) :=
  let sec_bytes := to_ne_bytes (us / 1000000)
  let usec_bytes := to_ne_bytes (us % 1000000)
  let ts_buf := translated_byte_buffer_pages ptr 16
  if ts_buf.length == 1 then (0, some (sec_bytes ++ usec_bytes)) else (0, none)

/-- `sys_task_info` (process.rs:65-89) given the current task's counters and dispatch
start time, the millisecond clock reading `now` and the user destination `ptr`.  The
result pairs the return value with the `TaskInfo` written to the 2016-byte destination
(`none` when the body skips the write because `translated_byte_buffer` returned other
than exactly one slice). -/
def sys_task_info (syscall_times : List Nat) (stime now ptr : Nat) :
    Int × Option TaskInfo :=
  let run_time := now - stime
  let task_info : TaskInfo :=
    { status := TaskStatus.Running, syscall_times := syscall_times, time := run_time }
  let ti_buf := translated_byte_buffer_pages ptr 2016
  if ti_buf.length == 1 then (0, some task_info) else (0, none)

/-- Modelled from the spec: the trap dispatcher (not under src/) invokes
`current_task_count_syscall` with the trapped syscall id before running the handler and
returning (§4.5: every invocation, including `task_info` itself, increments its own
counter) — shown here for a `task_info` trap: the snapshot the handler writes is built
from the already-incremented counters. -/
def dispatch_task_info (t : TaskInner) (now ptr : Nat) :
    (Int × Option TaskInfo) × List Nat :=
  let times := current_task_count_syscall t.task_syscall_times SYSCALL_TASK_INFO
  (sys_task_info times t.task_stime now ptr, times)

/-! ## Helper lemmas -/

theorem run_tasks_dispatch_stime (t : TaskInner) (now : Nat) :
    (run_tasks_dispatch t now).task_stime =
      if t.task_stime = 0 then now else t.task_stime := by
  unfold run_tasks_dispatch
  by_cases h : t.task_stime = 0 <;> simp [h]

theorem run_tasks_dispatch_status (t : TaskInner) (now : Nat) :
    (run_tasks_dispatch t now).task_status = TaskStatus.Running := by
  unfold run_tasks_dispatch
  by_cases h : t.task_stime = 0 <;> simp [h]

theorem dispatchSeq_stime_of_ne_zero (ts : List Nat) (t : TaskInner)
    (h : t.task_stime ≠ 0) : (dispatchSeq t ts).task_stime = t.task_stime := by
  induction ts generalizing t with
  | nil => rfl
  | cons n ns ih =>
    have hstep : (run_tasks_dispatch t n).task_stime = t.task_stime := by
      rw [run_tasks_dispatch_stime, if_neg h]
    calc (dispatchSeq t (n :: ns)).task_stime
        = (dispatchSeq (run_tasks_dispatch t n) ns).task_stime := rfl
      _ = (run_tasks_dispatch t n).task_stime := ih _ (by rw [hstep]; exact h)
      _ = t.task_stime := hstep

theorem ceilPage_eq_floorPage_of_aligned (start : Nat) (h : page_offset start = 0) :
    ceilPage start = floorPage start := by
  unfold ceilPage floorPage
  unfold page_offset PAGE_SIZE at *
  omega

/-! ## C7 -/

/-- C7 (amended): whenever `run_tasks` fetches a task, it sets its status to `Running`
and stamps the current time as its dispatch start exactly when the stored
`task_stime` is `0` (the code's "not yet recorded" sentinel); otherwise the stored
start time is left unchanged.  This coincides with "first dispatch" except for a task
whose first dispatch happened while the millisecond clock read `0`. -/
theorem C7_dispatch_stamp (t : TaskInner) (now : Nat) :
    (run_tasks_dispatch t now).task_status = TaskStatus.Running ∧
    (run_tasks_dispatch t now).task_stime =
      (if t.task_stime = 0 then now else t.task_stime) :=
  ⟨run_tasks_dispatch_status t now, run_tasks_dispatch_stime t now⟩

/-- C7 counterexample: a task first dispatched while the clock reads `0` keeps
`task_stime = 0`, and its second dispatch (at clock `5`) overwrites the recorded
dispatch start time — so the stamp is not taken only on the first dispatch. -/
theorem C7_restamp_counterexample :
    (run_tasks_dispatch ⟨TaskStatus.Ready, 0, []⟩ 0).task_stime = 0 ∧
    (run_tasks_dispatch (run_tasks_dispatch ⟨TaskStatus.Ready, 0, []⟩ 0) 5).task_stime
      = 5 := by
  decide

/-! ## C9 -/

/-- C9: `run_tasks` overwrites `task_stime` only when it equals `0`; hence a task whose
first dispatch happens at a nonzero clock value keeps that value through every later
dispatch, while a task first dispatched at clock value `0` is re-stamped on its next
dispatch. -/
theorem C9_stime_sentinel :
    (∀ t : TaskInner, ∀ now, t.task_stime ≠ 0 →
        (run_tasks_dispatch t now).task_stime = t.task_stime) ∧
    (∀ t : TaskInner, ∀ now, t.task_stime = 0 →
        (run_tasks_dispatch t now).task_stime = now) ∧
    (∀ t : TaskInner, ∀ c rest, t.task_stime = 0 → c ≠ 0 →
        (dispatchSeq (run_tasks_dispatch t c) rest).task_stime = c) ∧
    (∀ t : TaskInner, ∀ c, t.task_stime = 0 →
        (run_tasks_dispatch (run_tasks_dispatch t 0) c).task_stime = c) := by
  have hstamp : ∀ t : TaskInner, ∀ now, t.task_stime = 0 →
      (run_tasks_dispatch t now).task_stime = now := by
    intro t now h
    rw [run_tasks_dispatch_stime, if_pos h]
  refine ⟨?_, hstamp, ?_, ?_⟩
  · intro t now h
    rw [run_tasks_dispatch_stime, if_neg h]
  · intro t c rest h hc
    rw [dispatchSeq_stime_of_ne_zero rest _ (by rw [hstamp t c h]; exact hc),
      hstamp t c h]
  · intro t c h
    exact hstamp _ c (hstamp t 0 h)

/-- Witness for C9 at concrete inputs. -/
theorem C9_stime_sentinel_witness :
    (run_tasks_dispatch ⟨TaskStatus.Ready, 7, []⟩ 3).task_stime = 7 ∧
    (run_tasks_dispatch ⟨TaskStatus.Ready, 0, []⟩ 3).task_stime = 3 ∧
    (dispatchSeq (run_tasks_dispatch ⟨TaskStatus.Ready, 0, []⟩ 3) [9, 11]).task_stime
      = 3 ∧
    (run_tasks_dispatch (run_tasks_dispatch ⟨TaskStatus.UnInit, 0, []⟩ 0) 8).task_stime
      = 8 :=
  ⟨C9_stime_sentinel.1 _ 3 (by decide),
   C9_stime_sentinel.2.1 _ 3 rfl,
   C9_stime_sentinel.2.2.1 _ 3 [9, 11] rfl (by decide),
   C9_stime_sentinel.2.2.2 _ 8 rfl⟩

/-! ## C8 -/

/-- C8: for a page-aligned `start`, `current_task_munmap start 0` has an empty page
range, so the per-page mapping checks are vacuous and the function unconditionally
calls `remove_area_with_start_vpn (floorPage start)` and returns `0`; concretely, a
zero-length munmap at `0` removes the whole two-page area previously installed at `0`. -/
theorem C8_munmap_zero_len (ms : MemorySet) (start : Nat)
    (ha : page_offset start = 0) :
    current_task_munmap ms start 0 =
      (0, remove_area_with_start_vpn ms (floorPage start)) ∧
    (current_task_munmap (insert_framed_area emptyMS 0 8192 18) 0 0).2.areas = [] := by
  constructor
  · unfold current_task_munmap
    rw [if_neg (by simp [ha])]
    have hr : ceilPage (start + 0) = floorPage start := by
      rw [Nat.add_zero]
      exact ceilPage_eq_floorPage_of_aligned start ha
    simp only [hr]
    have : pageRange (floorPage start) (floorPage start) = [] := by
      unfold pageRange
      simp
    rw [this]
    rfl
  · rfl

/-- Witness for C8 at a concrete input. -/
theorem C8_munmap_zero_len_witness :
    page_offset 4096 = 0 ∧
    current_task_munmap emptyMS 4096 0 =
      (0, remove_area_with_start_vpn emptyMS (floorPage 4096)) :=
  ⟨by decide, (C8_munmap_zero_len emptyMS 4096 (by decide)).1⟩

/-! ## C3 -/

/-- C3: `sys_get_time` returns `0` for every destination — the claimed `-1` on a
destination that cannot be fully translated is unreachable — and at a destination whose
16 bytes straddle a page boundary (page offset 4088) the body performs no write at all
yet still returns `0`, instead of writing the two 8-byte fields as the claim states;
at a single-page destination it does write the seconds and microseconds bytes. -/
theorem C3_get_time_straddle (us ptr : Nat) :
    (sys_get_time us ptr).1 = 0 ∧
    sys_get_time us 4088 = (0, none) ∧
    sys_get_time us 0 =
      (0, some (to_ne_bytes (us / 1000000) ++ to_ne_bytes (us % 1000000))) := by
  refine ⟨?_, rfl, rfl⟩
  simp only [sys_get_time]
  split <;> rfl

/-! ## C4 -/

/-- C4: `sys_task_info` returns `0` for every destination — the claimed `-1` on a
destination that cannot be fully translated is unreachable — and at a destination whose
2016 bytes straddle a page boundary (page offset 2084) the body performs no write at
all yet still returns `0`; at a single-page destination it writes the snapshot
`{status = Running, syscall_times, time = now - stime}`. -/
theorem C4_task_info_straddle (times : List Nat) (stime now ptr : Nat) :
    (sys_task_info times stime now ptr).1 = 0 ∧
    sys_task_info times stime now 2084 = (0, none) ∧
    sys_task_info times stime now 0 =
      (0, some { status := TaskStatus.Running, syscall_times := times,
                 time := now - stime }) := by
  refine ⟨?_, rfl, rfl⟩
  simp only [sys_task_info]
  split <;> rfl

/-! ## C2 -/

/-- C2 (amended): for a page-aligned `start`, `current_task_munmap` returns `-1` with
the address space unchanged when some page in `[floor start, ceil (start+len))` is
unmapped, and otherwise calls `remove_area_with_start_vpn` with the range's start page
and returns `0` unconditionally — also when no area starts exactly at that page (the
failed removal is silent). -/
theorem C2_munmap_behavior (ms : MemorySet) (start len : Nat)
    (ha : page_offset start = 0) :
    ((pageRange (floorPage start) (ceilPage (start + len))).any (munmapPageFails ms)
        = true →
      current_task_munmap ms start len = (-1, ms)) ∧
    ((pageRange (floorPage start) (ceilPage (start + len))).any (munmapPageFails ms)
        = false →
      current_task_munmap ms start len =
        (0, remove_area_with_start_vpn ms (floorPage start))) := by
  constructor <;> intro h <;>
    · unfold current_task_munmap
      rw [if_neg (by simp [ha])]
      simp [h]

/-- C2 counterexample: with a single two-page area starting at page `0`, unmapping the
second page alone passes the per-page check (the page is mapped) but no area starts at
page `1`; the code still returns `0` (and silently removes nothing), where the claim
says it returns `-1` when no area starts exactly at the range's start page. -/
theorem C2_counterexample :
    ((insert_framed_area emptyMS 0 8192 18).areas.all (fun a => a.l != 1)) = true ∧
    current_task_munmap (insert_framed_area emptyMS 0 8192 18) 4096 4096 =
      (0, insert_framed_area emptyMS 0 8192 18) :=
  ⟨rfl, rfl⟩

/-- Witness for C2 at concrete inputs: both branches of the amended statement. -/
theorem C2_munmap_behavior_witness :
    page_offset 4096 = 0 ∧
    ((pageRange (floorPage 4096) (ceilPage (4096 + 4096))).any
        (munmapPageFails emptyMS) = true ∧
      current_task_munmap emptyMS 4096 4096 = (-1, emptyMS)) ∧
    ((pageRange (floorPage 4096) (ceilPage (4096 + 0))).any
        (munmapPageFails emptyMS) = false ∧
      current_task_munmap emptyMS 4096 0 =
        (0, remove_area_with_start_vpn emptyMS (floorPage 4096))) :=
  ⟨by decide,
   ⟨rfl, (C2_munmap_behavior emptyMS 4096 4096 (by decide)).1 rfl⟩,
   ⟨rfl, (C2_munmap_behavior emptyMS 4096 0 (by decide)).2 rfl⟩⟩

/-! ## Bit-level lemmas for the `port` permission argument -/

theorem usize_mask_testBit {j : Nat} (h3 : 3 ≤ j) (h64 : j < 64) :
    (USIZE - 8).testBit j = true := by
  have he : USIZE - 8 = (2 ^ 61 - 1) <<< 3 := by
    rw [Nat.shiftLeft_eq]
    unfold USIZE
    norm_num
  rw [he, Nat.testBit_shiftLeft, Nat.testBit_two_pow_sub_one]
  have hj : j - 3 < 61 := by omega
  simp [h3, hj]

theorem port_testBit_false (port : Nat) (hp1 : port &&& (USIZE - 8) = 0)
    {j : Nat} (h3 : 3 ≤ j) (h64 : j < 64) : port.testBit j = false := by
  have h := congrArg (fun n => n.testBit j) hp1
  simp only [Nat.testBit_and, Nat.zero_testBit] at h
  rw [usize_mask_testBit h3 h64] at h
  simpa using h

theorem port_shift_land_mask (port : Nat) (hp1 : port &&& (USIZE - 8) = 0) :
    ((port <<< 1) % 256) &&& (255 - MapPermission_ALL) = 0 := by
  apply Nat.zero_of_testBit_eq_false
  intro i
  have h256 : (256 : Nat) = 2 ^ 8 := by norm_num
  simp only [Nat.testBit_and, h256, Nat.testBit_mod_two_pow, Nat.testBit_shiftLeft]
  rcases Nat.lt_or_ge i 8 with h8 | h8
  · interval_cases i
    · simp
    · simp [show (255 - MapPermission_ALL).testBit 1 = false by decide]
    · simp [show (255 - MapPermission_ALL).testBit 2 = false by decide]
    · simp [show (255 - MapPermission_ALL).testBit 3 = false by decide]
    · simp [show (255 - MapPermission_ALL).testBit 4 = false by decide]
    · simp [port_testBit_false port hp1 (show 3 ≤ 4 by decide) (show 4 < 64 by decide)]
    · simp [port_testBit_false port hp1 (show 3 ≤ 5 by decide) (show 5 < 64 by decide)]
    · simp [port_testBit_false port hp1 (show 3 ≤ 6 by decide) (show 6 < 64 by decide)]
  · simp [show ¬ i < 8 by omega]

/-! ## Insert-area helper -/

theorem insert_framed_area_props (ms : MemorySet) (s e perm : Nat)
    (h : (pageRange (floorPage s) (ceilPage e)).any ms.isMapped = false) :
    (∀ v, ((insert_framed_area ms s e perm).isMapped v = true ↔
        (ms.isMapped v = true ∨ (floorPage s ≤ v ∧ v < ceilPage e)))) ∧
    (insert_framed_area ms s e perm).areas =
      ms.areas ++ [⟨floorPage s, ceilPage e, perm⟩] := by
  simp only [insert_framed_area]
  rw [if_neg (by simp [h])]
  constructor
  · intro v
    simp only [MemorySet.isMapped, MemorySet.translate]
    by_cases hv : floorPage s ≤ v ∧ v < ceilPage e
    · simp [hv, PTEntry.is_valid]
    · simp [hv]
  · rfl

/-! ## C5 -/

/-- C5: when `start` is not page-aligned, or `port` has a bit above bit 2 set, or
`port` has none of bits 0-2 set, `current_task_mmap` (whose validation is the same
test performed by `sys_mmap`) returns `-1` and leaves the address space unchanged. -/
theorem C5_mmap_validation (ms : MemorySet) (start len port : Nat)
    (h : page_offset start ≠ 0 ∨ port &&& (USIZE - 8) ≠ 0 ∨ port &&& 7 = 0) :
    current_task_mmap ms start len port = some (-1, ms) := by
  simp only [current_task_mmap]
  rw [if_pos h]

/-- Witness for C5 at a concrete input: `port = 0` has no permission bit set. -/
theorem C5_mmap_validation_witness :
    (page_offset 0 ≠ 0 ∨ (0 : Nat) &&& (USIZE - 8) ≠ 0 ∨ (0 : Nat) &&& 7 = 0) ∧
    current_task_mmap emptyMS 0 0 0 = some (-1, emptyMS) :=
  ⟨Or.inr (Or.inr (by decide)),
   C5_mmap_validation emptyMS 0 0 0 (Or.inr (Or.inr (by decide)))⟩

/-! ## C10 -/

/-- C10: under the validation precondition (`port & !0x7 == 0` and `port & 0x7 != 0`)
the `MapPermission::from_bits((port << 1) as u8)` call in `current_task_mmap` never
yields `None`, so its `unwrap` never panics: `port << 1` lies within the valid
R/W/X/U permission bits. -/
theorem C10_from_bits_never_panics (port : Nat)
    (hp1 : port &&& (USIZE - 8) = 0) (_hp2 : port &&& 7 ≠ 0) :
    (MapPermission_from_bits ((port <<< 1) % 256)).isSome = true := by
  unfold MapPermission_from_bits
  rw [if_pos (port_shift_land_mask port hp1)]
  rfl

/-- Witness for C10 at a concrete input. -/
theorem C10_from_bits_never_panics_witness :
    ((1 : Nat) &&& (USIZE - 8) = 0 ∧ (1 : Nat) &&& 7 ≠ 0) ∧
    (MapPermission_from_bits ((1 <<< 1) % 256)).isSome = true :=
  ⟨⟨by decide, by decide⟩, C10_from_bits_never_panics 1 (by decide) (by decide)⟩

/-! ## C1 -/

/-- C1 (amended): provided the validation passes (`start` page-aligned, `port` with
only the low 3 bits and at least one of them), `current_task_mmap` returns `-1` with
the address space unchanged when any page in `[floor start, ceil (start+len))` is
already mapped, and otherwise installs a framed area whose permissions are
`U ||| (port << 1)` (the user bit plus the requested R/W/X bits) over exactly that
range — afterwards a page is mapped iff it was before or lies in the range, and the
new MapArea covers precisely the range — and returns `0`. -/
theorem C1_mmap_all_or_nothing (ms : MemorySet) (start len port : Nat)
    (ha : page_offset start = 0) (hp1 : port &&& (USIZE - 8) = 0)
    (hp2 : port &&& 7 ≠ 0) :
    ((pageRange (floorPage start) (ceilPage (start + len))).any ms.isMapped = true →
      current_task_mmap ms start len port = some (-1, ms)) ∧
    ((pageRange (floorPage start) (ceilPage (start + len))).any ms.isMapped = false →
      current_task_mmap ms start len port =
        some ((0 : Int), insert_framed_area ms start (start + len)
          (MapPermission_U ||| (port <<< 1) % 256)) ∧
      (∀ v, ((insert_framed_area ms start (start + len)
            (MapPermission_U ||| (port <<< 1) % 256)).isMapped v = true ↔
          (ms.isMapped v = true ∨
            (floorPage start ≤ v ∧ v < ceilPage (start + len))))) ∧
      (insert_framed_area ms start (start + len)
          (MapPermission_U ||| (port <<< 1) % 256)).areas =
        ms.areas ++ [⟨floorPage start, ceilPage (start + len),
          MapPermission_U ||| (port <<< 1) % 256⟩]) := by
  have hval : ¬(page_offset start ≠ 0 ∨ port &&& (USIZE - 8) ≠ 0 ∨
      port &&& 7 = 0) := by
    simp [ha, hp1, hp2]
  constructor
  · intro hmapped
    simp only [current_task_mmap]
    rw [if_neg hval]
    simp [hmapped]
  · intro hfree
    have hins := insert_framed_area_props ms start (start + len)
      (MapPermission_U ||| (port <<< 1) % 256) hfree
    refine ⟨?_, hins.1, hins.2⟩
    simp only [current_task_mmap]
    rw [if_neg hval]
    simp [hfree, MapPermission_from_bits, port_shift_land_mask port hp1]

/-- C1 counterexample: with an empty address space no page in the requested range is
already mapped, yet `current_task_mmap` with the unaligned `start = 1` returns `-1`
and installs nothing — the claim as stated (quantified over every `start`, `len`,
`port`) says this call would install the area and return `0`. -/
theorem C1_counterexample :
    (pageRange (floorPage 1) (ceilPage (1 + 0))).any emptyMS.isMapped = false ∧
    current_task_mmap emptyMS 1 0 1 = some (-1, emptyMS) :=
  ⟨rfl, rfl⟩

/-- Witness for C1 at concrete inputs: both branches of the amended statement. -/
theorem C1_mmap_all_or_nothing_witness :
    (page_offset 0 = 0 ∧ (7 : Nat) &&& (USIZE - 8) = 0 ∧ (7 : Nat) &&& 7 ≠ 0) ∧
    ((pageRange (floorPage 0) (ceilPage (0 + 4096))).any
        (insert_framed_area emptyMS 0 4096 18).isMapped = true ∧
      current_task_mmap (insert_framed_area emptyMS 0 4096 18) 0 4096 7 =
        some (-1, insert_framed_area emptyMS 0 4096 18)) ∧
    ((pageRange (floorPage 0) (ceilPage (0 + 4096))).any emptyMS.isMapped = false ∧
      current_task_mmap emptyMS 0 4096 7 =
        some ((0 : Int), insert_framed_area emptyMS 0 4096
          (MapPermission_U ||| (7 <<< 1) % 256))) :=
  ⟨⟨rfl, by decide, by decide⟩,
   ⟨rfl, (C1_mmap_all_or_nothing (insert_framed_area emptyMS 0 4096 18) 0 4096 7
      rfl (by decide) (by decide)).1 rfl⟩,
   ⟨rfl, ((C1_mmap_all_or_nothing emptyMS 0 4096 7
      rfl (by decide) (by decide)).2 rfl).1⟩⟩

/-! ## C6 -/

/-- C6: `current_task_count_syscall` increases the current task's counter for the
invoked syscall id by exactly one (given the id is in range and the `u32` counter does
not wrap) and leaves every other counter unchanged; and under the spec-modelled trap
dispatcher a `task_info` invocation itself is counted before its handler builds the
snapshot, so the snapshot written at a translatable single-page destination carries the
already-incremented counters. -/
theorem C6_syscall_count (times : List Nat) (id : Nat)
    (h1 : id < times.length) (h2 : times.getD id 0 + 1 < U32) :
    (current_task_count_syscall times id).getD id 0 = times.getD id 0 + 1 ∧
    (∀ j, j ≠ id → (current_task_count_syscall times id).getD j 0 = times.getD j 0) ∧
    (∀ t : TaskInner, ∀ now,
      (dispatch_task_info t now 0).1.2 =
        some { status := TaskStatus.Running,
               syscall_times :=
                 current_task_count_syscall t.task_syscall_times SYSCALL_TASK_INFO,
               time := now - t.task_stime }) := by
  refine ⟨?_, ?_, ?_⟩
  · have h2b : times[id]?.getD 0 + 1 < U32 := by simpa using h2
    simp only [current_task_count_syscall, List.getD_eq_getElem?_getD,
      List.getElem?_set_self h1, Option.getD_some]
    exact Nat.mod_eq_of_lt h2b
  · intro j hj
    simp only [current_task_count_syscall, List.getD_eq_getElem?_getD,
      List.getElem?_set_ne (Ne.symm hj)]
  · intro t now
    rfl

/-- Witness for C6 at a concrete input. -/
theorem C6_syscall_count_witness :
    ((0 : Nat) < ([5] : List Nat).length ∧ ([5] : List Nat).getD 0 0 + 1 < U32) ∧
    (current_task_count_syscall [5] 0).getD 0 0 = ([5] : List Nat).getD 0 0 + 1 :=
  ⟨⟨by decide, by norm_num [U32]⟩,
   (C6_syscall_count [5] 0 (by decide) (by norm_num [U32])).1⟩
